import Mathlib

/-!
Verification of the `rust-easybit.io` client library (an HTTP client for the
easybit.io exchange REST API) against its natural-language specification.

The library is request/response glue: every operation builds a URL from the
client's base URL and a fixed endpoint path, attaches an `API-KEY` header,
optionally attaches query parameters or a JSON body, and maps the HTTP
status / JSON envelope of the response to a typed result or a typed error.

The shallow embedding below models:
 * JSON values (`serde_json::Value`) as the inductive `Json`;
 * each endpoint's outgoing request (`…_request` definitions), faithful to the
   URL, header, query-parameter and body construction in the source;
 * each endpoint's response handling (`…_handle` definitions), faithful to the
   status check (where the source has one) and the
   `{ data: … } | { errorMessage, errorCode }` envelope logic;
 * serde deserialization of each typed response model as an
   executable partial parser (`…fromJson?`).

Numeric conventions: Rust `f64` amounts are modelled by `ℚ` (no claim below
depends on float rounding or on the exact decimal rendering of a number);
`i32` / `i128` fields are modelled by `Int` with the corresponding range
checks applied during deserialization, mirroring serde's behaviour.
-/

/-- JSON values, modelling `serde_json::Value`.  Object fields are kept as an
association list in insertion order; no claim depends on field order and the
source never produces duplicate keys. -/
inductive Json where
  | null
  | bool (b : Bool)
  | num (q : ℚ)
  | str (s : String)
  | arr (elems : List Json)
  | obj (fields : List (String × Json))

/-- Field lookup in a JSON object's field list (first match wins). -/
def lookupField : List (String × Json) → String → Option Json
  | [], _ => none
  | (k, v) :: rest, key => if k = key then some v else lookupField rest key

/-- Models `serde_json::Value::get(key)`: `Some` for an object containing the
key, `None` for objects without it and for non-objects. -/
def jsonGet (j : Json) (key : String) : Option Json :=
  match j with
  | .obj fields => lookupField fields key
  | _ => none

/-- serde deserialization of `String`: succeeds only on a JSON string. -/
def Json.asString? : Json → Option String
  | .str s => some s
  | _ => none

/-- serde deserialization of `bool`: succeeds only on a JSON boolean. -/
def Json.asBool? : Json → Option Bool
  | .bool b => some b
  | _ => none

/-- serde deserialization of `i32`: succeeds on an integral JSON number within
the `i32` range. -/
def Json.asI32? : Json → Option Int
  | .num q => if q.den = 1 ∧ -(2 ^ 31) ≤ q.num ∧ q.num < 2 ^ 31 then some q.num else none
  | _ => none

/-- serde deserialization of `i128`: succeeds on an integral JSON number within
the `i128` range. -/
def Json.asI128? : Json → Option Int
  | .num q => if q.den = 1 ∧ -(2 ^ 127) ≤ q.num ∧ q.num < 2 ^ 127 then some q.num else none
  | _ => none

/-- serde deserialization of an `Option<String>` struct field: a missing field
and an explicit `null` both give `none`; a string gives `some`; any other JSON
value is a type error. -/
def getOptStr? (fields : List (String × Json)) (key : String) : Option (Option String) :=
  match lookupField fields key with
  | none => some none
  | some .null => some none
  | some (.str s) => some (some s)
  | some _ => none

/-- Deserialize every element of a JSON array with `f`; fail on a non-array or
on any failing element (serde's `Vec<T>` behaviour). -/
def mapOption {α : Type} (f : Json → Option α) : List Json → Option (List α)
  | [] => some []
  | x :: xs =>
    match f x with
    | some y => (mapOption f xs).map (fun ys => y :: ys)
    | none => none

/-- serde deserialization of `Vec<T>` given the element deserializer. -/
def listFromJson? {α : Type} (f : Json → Option α) : Json → Option (List α)
  | .arr xs => mapOption f xs
  | _ => none

/-- Rust `f64`, modelled by `ℚ`.  No claim below depends on rounding. -/
abbrev f64 : Type := ℚ

/-- Rust's `f64::to_string`.  The exact decimal rendering is not relied upon by
any claim; only the fact that the result is a string is. -/
def f64String (x : f64) : String := toString x

/-- `EasyBit` (src/lib.rs): the common error structure of the API, with the
service's message and numeric code.  `errorCode : i32` is modelled by `Int`
(range-checked during deserialization). -/
structure EasyBit where
  errorMessage : String
  errorCode : Int
deriving DecidableEq

/-- serde deserialization of `EasyBit` (derive `Deserialize`): requires an
object with a string `errorMessage` and an `i32` `errorCode`; unknown fields
are ignored. -/
def EasyBit.fromJson? (j : Json) : Option EasyBit :=
  match j with
  | .obj fields =>
    some EasyBit.mk
      <*> ((lookupField fields "errorMessage").bind Json.asString?)
      <*> ((lookupField fields "errorCode").bind Json.asI32?)
  | _ => none

/-- `Error` (src/lib.rs): the library's tagged error union.  `NetworkError`
wraps a `reqwest::Error` (including the error `reqwest` produces when
`response.json::<T>()` fails to decode the body), `DeserializeError` wraps a
`serde_json::Error` from `serde_json::from_value`, `ApiError` carries the
service's failure envelope.  Payloads of the first two are not modelled. -/
inductive Error where
  | NetworkError
  | DeserializeError
  | ApiError (e : EasyBit)
deriving DecidableEq

/-- `Client` (src/client.rs): base URL and API key, held for the lifetime of
the client. -/
structure Client where
  url : String
  api_key : String
deriving DecidableEq

/-- `Client::new` (src/client.rs). -/
def Client.new (url api_key : String) : Client := ⟨url, api_key⟩

/-- `Client::get_url` (src/client.rs): returns a clone of the URL. -/
def Client.get_url (c : Client) : String := c.url

/-- `Client::get_api_key` (src/client.rs): returns a clone of the API key. -/
def Client.get_api_key (c : Client) : String := c.api_key

/-- HTTP method of a request. -/
inductive Method where
  | GET
  | POST
deriving DecidableEq

/-- An outgoing HTTP request as the library builds it with `reqwest`: target
URL string, explicitly set headers, query parameters (appended to the URL by
`reqwest` at send time), and optional JSON body. -/
structure Request where
  method : Method
  url : String
  headers : List (String × String)
  query : List (String × String)
  body : Option Json

/-- An HTTP response already received and decoded: status code and JSON body.
Transport failures and non-JSON bodies (both surfaced by the library as
`Error.NetworkError`) are outside this type. -/
structure HttpResponse where
  status : Nat
  body : Json

/-- `Account` (src/account.rs). -/
structure Account where
  level : Int
  volume : String
  fee : String
  extraFee : String
  totalFee : String
deriving DecidableEq

/-- serde deserialization of `Account`. -/
def Account.fromJson? (j : Json) : Option Account :=
  match j with
  | .obj fields =>
    some Account.mk
      <*> ((lookupField fields "level").bind Json.asI32?)
      <*> ((lookupField fields "volume").bind Json.asString?)
      <*> ((lookupField fields "fee").bind Json.asString?)
      <*> ((lookupField fields "extraFee").bind Json.asString?)
      <*> ((lookupField fields "totalFee").bind Json.asString?)
  | _ => none

/-- `Network` (src/currency/info.rs): one network of a currency. -/
structure Network where
  network : String
  name : String
  isDefault : Bool
  sendStatus : Bool
  receiveStatus : Bool
  receiveDecimals : Int
  confirmationsMinimum : Int
  confirmationsMaximum : Int
  explorer : String
  explorerHash : String
  explorerAddress : String
  hasTag : Bool
  tagName : Option String
  contractAddress : Option String
  explorerContract : Option String
deriving DecidableEq

/-- serde deserialization of `Network` (src/currency/info.rs). -/
def Network.fromJson? (j : Json) : Option Network :=
  match j with
  | .obj fields =>
    some Network.mk
      <*> ((lookupField fields "network").bind Json.asString?)
      <*> ((lookupField fields "name").bind Json.asString?)
      <*> ((lookupField fields "isDefault").bind Json.asBool?)
      <*> ((lookupField fields "sendStatus").bind Json.asBool?)
      <*> ((lookupField fields "receiveStatus").bind Json.asBool?)
      <*> ((lookupField fields "receiveDecimals").bind Json.asI32?)
      <*> ((lookupField fields "confirmationsMinimum").bind Json.asI32?)
      <*> ((lookupField fields "confirmationsMaximum").bind Json.asI32?)
      <*> ((lookupField fields "explorer").bind Json.asString?)
      <*> ((lookupField fields "explorerHash").bind Json.asString?)
      <*> ((lookupField fields "explorerAddress").bind Json.asString?)
      <*> ((lookupField fields "hasTag").bind Json.asBool?)
      <*> (getOptStr? fields "tagName")
      <*> (getOptStr? fields "contractAddress")
      <*> (getOptStr? fields "explorerContract")
  | _ => none

/-- `Currency` (src/currency/info.rs). -/
structure Currency where
  currency : String
  name : String
  sendStatusAll : Bool
  receiveStatusAll : Bool
  networkList : List Network
deriving DecidableEq

/-- serde deserialization of `Currency` (src/currency/info.rs). -/
def Currency.fromJson? (j : Json) : Option Currency :=
  match j with
  | .obj fields =>
    some Currency.mk
      <*> ((lookupField fields "currency").bind Json.asString?)
      <*> ((lookupField fields "name").bind Json.asString?)
      <*> ((lookupField fields "sendStatusAll").bind Json.asBool?)
      <*> ((lookupField fields "receiveStatusAll").bind Json.asBool?)
      <*> ((lookupField fields "networkList").bind (listFromJson? Network.fromJson?))
  | _ => none

/-- `Pair` (src/currency/pair_info.rs). -/
structure Pair where
  minimumAmount : String
  maximumAmount : String
  networkFee : String
  confirmations : Int
  processingTime : String
deriving DecidableEq

/-- serde deserialization of `Pair`. -/
def Pair.fromJson? (j : Json) : Option Pair :=
  match j with
  | .obj fields =>
    some Pair.mk
      <*> ((lookupField fields "minimumAmount").bind Json.asString?)
      <*> ((lookupField fields "maximumAmount").bind Json.asString?)
      <*> ((lookupField fields "networkFee").bind Json.asString?)
      <*> ((lookupField fields "confirmations").bind Json.asI32?)
      <*> ((lookupField fields "processingTime").bind Json.asString?)
  | _ => none

/-- `ExchangeRate` (src/currency/exchange_rate.rs). -/
structure ExchangeRate where
  rate : String
  sendAmount : String
  receiveAmount : String
  networkFee : String
  confirmations : Int
  processingTime : String
deriving DecidableEq

/-- serde deserialization of `ExchangeRate`. -/
def ExchangeRate.fromJson? (j : Json) : Option ExchangeRate :=
  match j with
  | .obj fields =>
    some ExchangeRate.mk
      <*> ((lookupField fields "rate").bind Json.asString?)
      <*> ((lookupField fields "sendAmount").bind Json.asString?)
      <*> ((lookupField fields "receiveAmount").bind Json.asString?)
      <*> ((lookupField fields "networkFee").bind Json.asString?)
      <*> ((lookupField fields "confirmations").bind Json.asI32?)
      <*> ((lookupField fields "processingTime").bind Json.asString?)
  | _ => none

namespace orders

/-- `Order` (src/orders/create.rs): the typed response of `/order`. -/
structure Order where
  id : String
  send : String
  receive : String
  sendNetwork : String
  receiveNetwork : String
  sendAmount : String
  receiveAmount : String
  sendAddress : String
  sendTag : Option String
  receiveAddress : String
  receiveTag : Option String
  refundAddress : Option String
  refundTag : Option String
  vpm : String
  createdAt : Int
deriving DecidableEq

/-- serde deserialization of `Order` (src/orders/create.rs); `createdAt : i128`. -/
def Order.fromJson? (j : Json) : Option Order :=
  match j with
  | .obj fields =>
    some Order.mk
      <*> ((lookupField fields "id").bind Json.asString?)
      <*> ((lookupField fields "send").bind Json.asString?)
      <*> ((lookupField fields "receive").bind Json.asString?)
      <*> ((lookupField fields "sendNetwork").bind Json.asString?)
      <*> ((lookupField fields "receiveNetwork").bind Json.asString?)
      <*> ((lookupField fields "sendAmount").bind Json.asString?)
      <*> ((lookupField fields "receiveAmount").bind Json.asString?)
      <*> ((lookupField fields "sendAddress").bind Json.asString?)
      <*> (getOptStr? fields "sendTag")
      <*> ((lookupField fields "receiveAddress").bind Json.asString?)
      <*> (getOptStr? fields "receiveTag")
      <*> (getOptStr? fields "refundAddress")
      <*> (getOptStr? fields "refundTag")
      <*> ((lookupField fields "vpm").bind Json.asString?)
      <*> ((lookupField fields "createdAt").bind Json.asI128?)
  | _ => none

/-- `User` (src/orders/create.rs): user identity parameters of `/order`. -/
structure User where
  user_device_id : Option String
  user_id : Option String
  payload : Option String

/-- `Network` (src/orders/create.rs): network parameters of `/order`. -/
structure Network where
  send_network : Option String
  receive_network : Option String
  receive_tag : Option String

/-- `Transaction` (src/orders/create.rs): transaction parameters of `/order`. -/
structure Transaction where
  send : String
  receive : String
  amount : f64
  receive_address : String
  extra_fee_override : Option f64
  vpm : Option String
  refund_address : Option String
  refund_tag : Option String

/-- `Status` (src/orders/status.rs): the typed response of `/orderStatus`. -/
structure Status where
  id : String
  status : String
  receiveAmount : String
  hashIn : Option String
  hashOut : Option String
  validationStatus : Option String
  createdAt : Int
  updatedAt : Int
deriving DecidableEq

/-- serde deserialization of `Status` (src/orders/status.rs). -/
def Status.fromJson? (j : Json) : Option Status :=
  match j with
  | .obj fields =>
    some Status.mk
      <*> ((lookupField fields "id").bind Json.asString?)
      <*> ((lookupField fields "status").bind Json.asString?)
      <*> ((lookupField fields "receiveAmount").bind Json.asString?)
      <*> (getOptStr? fields "hashIn")
      <*> (getOptStr? fields "hashOut")
      <*> (getOptStr? fields "validationStatus")
      <*> ((lookupField fields "createdAt").bind Json.asI128?)
      <*> ((lookupField fields "updatedAt").bind Json.asI128?)
  | _ => none

/-- `Summary` (src/orders/all.rs): one element of the `/orders` response. -/
structure Summary where
  id : String
  send : String
  receive : String
  sendNetwork : String
  receiveNetwork : String
  sendAmount : String
  receiveAmount : String
  estimatedSendAmount : String
  estimatedReceiveAmount : String
  sendAddress : String
  sendTag : Option String
  receiveAddress : String
  receiveTag : Option String
  refundAddress : Option String
  refundTag : Option String
  vpm : String
  status : String
  hashIn : Option String
  hashOut : Option String
  networkFee : String
  earned : String
  validationStatus : Option String
  createdAt : Int
  updatedAt : Int
deriving DecidableEq

/-- serde deserialization of `Summary` (src/orders/all.rs). -/
def Summary.fromJson? (j : Json) : Option Summary :=
  match j with
  | .obj fields =>
    some Summary.mk
      <*> ((lookupField fields "id").bind Json.asString?)
      <*> ((lookupField fields "send").bind Json.asString?)
      <*> ((lookupField fields "receive").bind Json.asString?)
      <*> ((lookupField fields "sendNetwork").bind Json.asString?)
      <*> ((lookupField fields "receiveNetwork").bind Json.asString?)
      <*> ((lookupField fields "sendAmount").bind Json.asString?)
      <*> ((lookupField fields "receiveAmount").bind Json.asString?)
      <*> ((lookupField fields "estimatedSendAmount").bind Json.asString?)
      <*> ((lookupField fields "estimatedReceiveAmount").bind Json.asString?)
      <*> ((lookupField fields "sendAddress").bind Json.asString?)
      <*> (getOptStr? fields "sendTag")
      <*> ((lookupField fields "receiveAddress").bind Json.asString?)
      <*> (getOptStr? fields "receiveTag")
      <*> (getOptStr? fields "refundAddress")
      <*> (getOptStr? fields "refundTag")
      <*> ((lookupField fields "vpm").bind Json.asString?)
      <*> ((lookupField fields "status").bind Json.asString?)
      <*> (getOptStr? fields "hashIn")
      <*> (getOptStr? fields "hashOut")
      <*> ((lookupField fields "networkFee").bind Json.asString?)
      <*> ((lookupField fields "earned").bind Json.asString?)
      <*> (getOptStr? fields "validationStatus")
      <*> ((lookupField fields "createdAt").bind Json.asI128?)
      <*> ((lookupField fields "updatedAt").bind Json.asI128?)
  | _ => none

end orders

namespace kyc

/-- `DocumentType` (src/kyc/update.rs). -/
inductive DocumentType where
  | Passport
  | IdCard
  | DriverLicense
  | ResidencePermit

/-- `Side` (src/kyc/update.rs). -/
inductive Side where
  | Front
  | Back
  | Single

/-- `Document` (src/kyc/update.rs). -/
structure Document where
  documentType : Option DocumentType
  side : Option Side
  uri : Option String
  selfie : Option (List String)

/-- `ValidationData` (src/kyc/update.rs). -/
structure ValidationData where
  country : Option String
  documents : Option (List Document)

/-- `Proof` (src/kyc/update.rs): the input of `Client::update_order_kyc`. -/
structure Proof where
  id : String
  userId : Option String
  validationData : Option ValidationData

end kyc

/-! ### Response-envelope handling

The source repeats the same dozen lines of envelope logic per endpoint; the
two combinators below are that repeated code, instantiated per endpoint with
the endpoint's `data` deserializer.
-/

/-- The error branch shared by the endpoints that check the status code:
`let error: EasyBit = response.json().await?`.  A body that does not parse as
`EasyBit` makes `reqwest`'s `json()` fail, which `?` converts into
`Error::NetworkError` (not `DeserializeError`). -/
def parseFailDirect (α : Type) (body : Json) : Except Error α :=
  match EasyBit.fromJson? body with
  | some e => .error (.ApiError e)
  | none => .error .NetworkError

/-- Envelope handling without a status check (`get_currency_list`,
`create_order`, `order_status`, `all_orders`): read the body as JSON, return
`Ok` of the deserialized `data` field if present, otherwise parse the body as
an `EasyBit` failure envelope with `serde_json::from_value` (whose failure is
`Error::DeserializeError`). -/
def handleBody {α : Type} (fromJson? : Json → Option α) (body : Json) : Except Error α :=
  match jsonGet body "data" with
  | some data =>
    match fromJson? data with
    | some v => .ok v
    | none => .error .DeserializeError
  | none =>
    match EasyBit.fromJson? body with
    | some e => .error (.ApiError e)
    | none => .error .DeserializeError

/-- Envelope handling behind a `StatusCode::OK` check (`get_account`,
`get_pair_list`, `get_pair_info`, `get_exchange_rate`): on 200 proceed as
`handleBody`; on any other status parse the body directly as `EasyBit`. -/
def handleStatusBody {α : Type} (fromJson? : Json → Option α) (status : Nat) (body : Json) :
    Except Error α :=
  if status = 200 then handleBody fromJson? body else parseFailDirect α body

/-! ### Per-endpoint request builders and response handlers -/

/-- The request built by `get_account` (src/account.rs). -/
def get_account_request (c : Client) : Request :=
  ⟨.GET, c.get_url ++ "/account", [("API-KEY", c.get_api_key)], [], none⟩

/-- Response handling of `get_account` (src/account.rs). -/
def get_account_handle (status : Nat) (body : Json) : Except Error Account :=
  handleStatusBody Account.fromJson? status body

/-- The request built by `set_fee` (src/account.rs): a POST with JSON body
`{"extraFee": fee}`. -/
def set_fee_request (c : Client) (fee : f64) : Request :=
  ⟨.POST, c.get_url ++ "/setExtraFee", [("API-KEY", c.get_api_key)], [],
    some (.obj [("extraFee", .num fee)])⟩

/-- Response handling of `set_fee` (src/account.rs): `Ok(())` on status 200
without reading the body, otherwise parse the body as `EasyBit`. -/
def set_fee_handle (status : Nat) (body : Json) : Except Error Unit :=
  if status = 200 then .ok () else parseFailDirect Unit body

/-- The request built by `get_currency_list` (src/currency/info.rs). -/
def get_currency_list_request (c : Client) : Request :=
  ⟨.GET, c.get_url ++ "/currencyList", [("API-KEY", c.get_api_key)], [], none⟩

/-- Response handling of `get_currency_list` (src/currency/info.rs): no status
check. -/
def get_currency_list_handle (body : Json) : Except Error (List Currency) :=
  handleBody (listFromJson? Currency.fromJson?) body

/-- The request built by `get_single_currency` (src/currency/info.rs): the
query is embedded in the path by `format!("/currencyList?currency={}", currency)`. -/
def get_single_currency_request (c : Client) (currency : String) : Request :=
  ⟨.GET, c.get_url ++ ("/currencyList?currency=" ++ currency),
    [("API-KEY", c.get_api_key)], [], none⟩

/-- Response handling of `get_single_currency` (src/currency/info.rs): behind
a 200 check, deserialize `data` as `Vec<Currency>`; an empty list becomes a
synthesized `ApiError` 404 "Currency not found", otherwise the first element
is returned. -/
def get_single_currency_handle (status : Nat) (body : Json) : Except Error Currency :=
  if status = 200 then
    match jsonGet body "data" with
    | some data =>
      match listFromJson? Currency.fromJson? data with
      | some currency =>
        match currency with
        | [] => .error (.ApiError ⟨"Currency not found", 404⟩)
        | x :: _ => .ok x
      | none => .error .DeserializeError
    | none =>
      match EasyBit.fromJson? body with
      | some e => .error (.ApiError e)
      | none => .error .DeserializeError
  else parseFailDirect Currency body

/-- The full `get_single_currency` operation (src/currency/info.rs), as the
map from the requested code and the service's response to the typed result.
The result does not depend on the `currency` argument, only the request does. -/
def get_single_currency (c : Client) (currency : String) (resp : HttpResponse) :
    Except Error Currency :=
  get_single_currency_handle resp.status resp.body

/-- The request built by `get_pair_list` (src/currency/pair_list.rs). -/
def get_pair_list_request (c : Client) : Request :=
  ⟨.GET, c.get_url ++ "/pairList", [("API-KEY", c.get_api_key)], [], none⟩

/-- Response handling of `get_pair_list` (src/currency/pair_list.rs). -/
def get_pair_list_handle (status : Nat) (body : Json) : Except Error (List String) :=
  handleStatusBody (listFromJson? Json.asString?) status body

/-- The request built by `get_pair_info` (src/currency/pair_info.rs): optional
parameters are passed through `unwrap_or_default()`, so a `None` is sent as an
empty-string query value rather than omitted. -/
def get_pair_info_request (c : Client) (send receive : String)
    (sendNetwork receiveNetwork amountType : Option String) : Request :=
  ⟨.GET, c.get_url ++ "/pairInfo", [("API-KEY", c.get_api_key)],
    [("send", send), ("receive", receive),
     ("sendNetwork", sendNetwork.getD ""),
     ("receiveNetwork", receiveNetwork.getD ""),
     ("amountType", amountType.getD "")], none⟩

/-- Response handling of `get_pair_info` (src/currency/pair_info.rs). -/
def get_pair_info_handle (status : Nat) (body : Json) : Except Error Pair :=
  handleStatusBody Pair.fromJson? status body

/-- The request built by `get_exchange_rate` (src/currency/exchange_rate.rs):
`amount` is passed through `to_string()`; optional string parameters through
`unwrap_or_default()` (empty string), the optional fee override through
`unwrap_or_default().to_string()` (the rendering of `0.0`). -/
def get_exchange_rate_request (c : Client) (send receive : String) (amount : f64)
    (send_network receive_network amount_type : Option String)
    (extra_fee_override : Option f64) : Request :=
  ⟨.GET, c.get_url ++ "/rate", [("API-KEY", c.get_api_key)],
    [("send", send), ("receive", receive),
     ("amount", f64String amount),
     ("sendNetwork", send_network.getD ""),
     ("receiveNetwork", receive_network.getD ""),
     ("amountType", amount_type.getD ""),
     ("extraFeeOverride", f64String (extra_fee_override.getD 0))], none⟩

/-- Response handling of `get_exchange_rate` (src/currency/exchange_rate.rs). -/
def get_exchange_rate_handle (status : Nat) (body : Json) : Except Error ExchangeRate :=
  handleStatusBody ExchangeRate.fromJson? status body

/-- Query-parameter pair for an `Option` value, as `reqwest`/`serde_urlencoded`
serializes it: a `None` value is omitted from the query entirely. -/
def optPair (key : String) : Option String → List (String × String)
  | some v => [(key, v)]
  | none => []

/-- The request built by `validate_address` (src/currency/validate_address.rs):
`network` and `tag` are pushed onto the query only when they are `Some`. -/
def validate_address_request (c : Client) (currency address : String)
    (network tag : Option String) : Request :=
  ⟨.GET, c.get_url ++ "/validateAddress", [("API-KEY", c.get_api_key)],
    [("currency", currency), ("address", address)] ++ optPair "network" network ++
      optPair "tag" tag, none⟩

/-- Response handling of `validate_address` (src/currency/validate_address.rs):
`Ok(())` on status 200 without reading the body, otherwise parse the body as
`EasyBit`. -/
def validate_address_handle (status : Nat) (body : Json) : Except Error Unit :=
  if status = 200 then .ok () else parseFailDirect Unit body

/-- `Option<String>` in a `serde_json::json!` body: `None` serializes to
`null`. -/
def optJsonStr : Option String → Json
  | some s => .str s
  | none => .null

/-- `Option<f64>` in a `serde_json::json!` body: `None` serializes to `null`. -/
def optJsonNum : Option f64 → Json
  | some x => .num x
  | none => .null

/-- The JSON body built by `create_order` (src/orders/create.rs).  Field order
is insertion order; no claim depends on it.  `amount` is a raw JSON number. -/
def create_order_body (t : orders.Transaction) (u : orders.User) (n : orders.Network) : Json :=
  .obj [
    ("send", .str t.send),
    ("receive", .str t.receive),
    ("amount", .num t.amount),
    ("receiveAddress", .str t.receive_address),
    ("payload", optJsonStr u.payload),
    ("userDeviceId", optJsonStr u.user_device_id),
    ("userId", optJsonStr u.user_id),
    ("sendNetwork", optJsonStr n.send_network),
    ("receiveNetwork", optJsonStr n.receive_network),
    ("receiveTag", optJsonStr n.receive_tag),
    ("extraFeeOverride", optJsonNum t.extra_fee_override),
    ("vpm", optJsonStr t.vpm),
    ("refundAddress", optJsonStr t.refund_address),
    ("refundTag", optJsonStr t.refund_tag)]

/-- The request built by `create_order` (src/orders/create.rs). -/
def create_order_request (c : Client) (t : orders.Transaction) (u : orders.User)
    (n : orders.Network) : Request :=
  ⟨.POST, c.get_url ++ "/order", [("API-KEY", c.get_api_key)], [],
    some (create_order_body t u n)⟩

/-- Response handling of `create_order` (src/orders/create.rs): no status
check. -/
def create_order_handle (body : Json) : Except Error orders.Order :=
  handleBody orders.Order.fromJson? body

/-- The request built by `order_status` (src/orders/status.rs). -/
def order_status_request (c : Client) (id : String) : Request :=
  ⟨.GET, c.get_url ++ "/orderStatus", [("API-KEY", c.get_api_key)], [("id", id)], none⟩

/-- Response handling of `order_status` (src/orders/status.rs): no status
check. -/
def order_status_handle (body : Json) : Except Error orders.Status :=
  handleBody orders.Status.fromJson? body

/-- The request built by `all_orders` (src/orders/all.rs): six optional query
parameters, serialized by `reqwest` with `None` values omitted. -/
def all_orders_request (c : Client) (id limit date_from date_to sort_direction status :
    Option String) : Request :=
  ⟨.GET, c.get_url ++ "/orders", [("API-KEY", c.get_api_key)],
    optPair "id" id ++ optPair "limit" limit ++ optPair "dateFrom" date_from ++
      optPair "dateTo" date_to ++ optPair "sortDirection" sort_direction ++
      optPair "status" status, none⟩

/-- Response handling of `all_orders` (src/orders/all.rs): no status check. -/
def all_orders_handle (body : Json) : Except Error (List orders.Summary) :=
  handleBody (listFromJson? orders.Summary.fromJson?) body

/-! ### Client methods as actions

A client method either issues an HTTP request (all implemented endpoints) or
panics before any I/O (`update_order_kyc` and `refund_order`, whose bodies are
an unconditional `todo!`). -/

/-- What a client method does when called. -/
inductive OpAction where
  | panics (msg : String)
  | httpRequest (req : Request)

/-- The request issued by an action, if any. -/
def OpAction.issuedRequest : OpAction → Option Request
  | .panics _ => none
  | .httpRequest r => some r

/-- The `todo!` message of the two unimplemented client methods
(src/client.rs). -/
def todoMsg : String := "Limited ways to test current implementation. Wait for future updates."

/-- `Client::update_order_kyc` (src/client.rs): unconditional `todo!` before
any request is built; the commented-out call to `update_kyc` is dead code. -/
def update_order_kyc (c : Client) (proof : kyc.Proof) : OpAction :=
  .panics todoMsg

/-- `Client::refund_order` (src/client.rs): unconditional `todo!` before any
request is built; the commented-out call to `refund` is dead code. -/
def refund_order (c : Client) (order_id refund_address : String)
    (refund_tag : Option String) : OpAction :=
  .panics todoMsg

/-! ### Call sequences

Every client method takes `&self`; none of them can mutate the credentials
(the `Client` struct has no interior mutability).  A call sequence is modelled
by state passing: each call yields its action and leaves the borrowed client
unchanged. -/

/-- One call to a client method, with its parameters. -/
inductive ClientCall where
  | getAccount
  | setFee (fee : f64)
  | getCurrencyList
  | getSingleCurrency (currency : String)
  | getPairList
  | getPairInfo (send receive : String) (send_network receive_network amount_type : Option String)
  | getExchangeRate (send receive : String) (amount : f64)
      (send_network receive_network amount_type : Option String)
      (extra_fee_override : Option f64)
  | validateAddress (currency address : String) (network tag : Option String)
  | placeOrder (t : orders.Transaction) (u : orders.User) (n : orders.Network)
  | getOrderStatus (order_id : String)
  | getAllOrders (id limit date_from date_to sort_direction status : Option String)
  | updateOrderKyc (proof : kyc.Proof)
  | refundOrder (order_id refund_address : String) (refund_tag : Option String)

/-- Dispatch one call on a client to the action the method performs. -/
def dispatch (c : Client) : ClientCall → OpAction
  | .getAccount => .httpRequest (get_account_request c)
  | .setFee fee => .httpRequest (set_fee_request c fee)
  | .getCurrencyList => .httpRequest (get_currency_list_request c)
  | .getSingleCurrency currency => .httpRequest (get_single_currency_request c currency)
  | .getPairList => .httpRequest (get_pair_list_request c)
  | .getPairInfo s r sn rn a => .httpRequest (get_pair_info_request c s r sn rn a)
  | .getExchangeRate s r amt sn rn a efo =>
      .httpRequest (get_exchange_rate_request c s r amt sn rn a efo)
  | .validateAddress cur addr n t => .httpRequest (validate_address_request c cur addr n t)
  | .placeOrder t u n => .httpRequest (create_order_request c t u n)
  | .getOrderStatus id => .httpRequest (order_status_request c id)
  | .getAllOrders i l f t sd st => .httpRequest (all_orders_request c i l f t sd st)
  | .updateOrderKyc proof => update_order_kyc c proof
  | .refundOrder oid addr tag => refund_order c oid addr tag

/-- Apply one call: the action performed and the client afterwards.  All
methods borrow `&self` immutably, so the client is returned unchanged. -/
def applyCall (c : Client) (call : ClientCall) : Client × OpAction :=
  (c, dispatch c call)

/-- The client state after a sequence of calls. -/
def runCalls (c : Client) : List ClientCall → Client
  | [] => c
  | call :: rest => runCalls (applyCall c call).1 rest

/-! ### Concrete sample values used by witnesses and counterexamples -/

/-- A sample client. -/
def cl0 : Client := Client.new "https://api.easybit.io" "secret-key"

/-- A sample serialized `Account`. -/
def accJson : Json :=
  .obj [("level", .num 1), ("volume", .str "0"), ("fee", .str "0.004"),
    ("extraFee", .str "0"), ("totalFee", .str "0.004")]

/-- A sample success envelope for `/account`. -/
def accBody : Json := .obj [("data", accJson)]

/-- The `Account` value `accJson` deserializes to. -/
def acc0 : Account := ⟨1, "0", "0.004", "0", "0.004"⟩

/-- A sample serialized `Currency` whose code is `"ETH"`. -/
def ethJson : Json :=
  .obj [("currency", .str "ETH"), ("name", .str "Ethereum"),
    ("sendStatusAll", .bool true), ("receiveStatusAll", .bool true),
    ("networkList", .arr [])]

/-- The `Currency` value `ethJson` deserializes to. -/
def ethCur : Currency := ⟨"ETH", "Ethereum", true, true, []⟩

/-- A 200 response body for `/currencyList?currency=BTC` whose `data` list
holds only the `"ETH"` record. -/
def bodyEth : Json := .obj [("data", .arr [ethJson])]

/-- A well-formed failure envelope, as a function of its two fields. -/
def failEnv (m : String) (c : Int) : Json :=
  .obj [("errorMessage", .str m), ("errorCode", .num (c : ℚ))]

/-- Sample `/order` transaction parameters (the ones of the repository's
`test_place_simple_order`, with `amount` 0.1). -/
def tx0 : orders.Transaction :=
  ⟨"BTC", "ETH", 1 / 10, "0xeB2629a2734e272Bcc07BDA959863f316F4bD4Cf", none, none, none, none⟩

/-- Sample `/order` user parameters. -/
def user0 : orders.User := ⟨some "test", none, none⟩

/-- Sample `/order` network parameters. -/
def net0 : orders.Network := ⟨none, none, none⟩

/-- Whether a JSON value is a string. -/
def Json.isStr : Json → Bool
  | .str _ => true
  | _ => false

/-! ### Helper lemmas about the envelope combinators -/

theorem hb_data {α : Type} (f : Json → Option α) {body d : Json} {v : α}
    (h1 : jsonGet body "data" = some d) (h2 : f d = some v) :
    handleBody f body = .ok v := by
  simp [handleBody, h1, h2]

theorem hb_noData {α : Type} (f : Json → Option α) {body : Json} {e : EasyBit}
    (h1 : jsonGet body "data" = none) (h2 : EasyBit.fromJson? body = some e) :
    handleBody f body = .error (.ApiError e) := by
  simp [handleBody, h1, h2]

theorem pfd_some (α : Type) {body : Json} {e : EasyBit}
    (h : EasyBit.fromJson? body = some e) :
    parseFailDirect α body = .error (.ApiError e) := by
  simp [parseFailDirect, h]

theorem pfd_ne_ok (α : Type) (body : Json) (v : α) :
    parseFailDirect α body ≠ .ok v := by
  unfold parseFailDirect
  cases EasyBit.fromJson? body <;> simp

theorem hsb_data {α : Type} (f : Json → Option α) {body d : Json} {v : α}
    (h1 : jsonGet body "data" = some d) (h2 : f d = some v) :
    handleStatusBody f 200 body = .ok v := by
  simpa [handleStatusBody] using hb_data f h1 h2

theorem hsb_noData {α : Type} (f : Json → Option α) {body : Json} {e : EasyBit}
    (h1 : jsonGet body "data" = none) (h2 : EasyBit.fromJson? body = some e) :
    handleStatusBody f 200 body = .error (.ApiError e) := by
  simpa [handleStatusBody] using hb_noData f h1 h2

theorem hsb_ne {α : Type} (f : Json → Option α) {s : Nat} {body : Json} {e : EasyBit}
    (h0 : s ≠ 200) (h2 : EasyBit.fromJson? body = some e) :
    handleStatusBody f s body = .error (.ApiError e) := by
  unfold handleStatusBody
  rw [if_neg h0]
  exact pfd_some α h2

theorem failEnv_noData (m : String) (c : Int) : jsonGet (failEnv m c) "data" = none := rfl

theorem easyBit_failEnv (m : String) (c : Int)
    (h1 : -(2 ^ 31) ≤ c) (h2 : c < 2 ^ 31) :
    EasyBit.fromJson? (failEnv m c) = some ⟨m, c⟩ := by
  have hden : ((c : ℚ)).den = 1 := Rat.den_intCast c
  have hnum : ((c : ℚ)).num = c := Rat.num_intCast c
  simp [failEnv, EasyBit.fromJson?, lookupField, Json.asI32?, Json.asString?,
    Seq.seq, hden, hnum, h1, h2]
  omega

theorem gsc_first {body d : Json} {x : Currency} {xs : List Currency}
    (h1 : jsonGet body "data" = some d)
    (h2 : listFromJson? Currency.fromJson? d = some (x :: xs)) :
    get_single_currency_handle 200 body = .ok x := by
  simp [get_single_currency_handle, h1, h2]

theorem gsc_noData {body : Json} {e : EasyBit}
    (h1 : jsonGet body "data" = none) (h2 : EasyBit.fromJson? body = some e) :
    get_single_currency_handle 200 body = .error (.ApiError e) := by
  simp [get_single_currency_handle, h1, h2]

theorem gsc_ne {s : Nat} {body : Json} {e : EasyBit}
    (h0 : s ≠ 200) (h2 : EasyBit.fromJson? body = some e) :
    get_single_currency_handle s body = .error (.ApiError e) := by
  unfold get_single_currency_handle
  rw [if_neg h0]
  exact pfd_some Currency h2

theorem sfh_ne {s : Nat} {body : Json} {e : EasyBit}
    (h0 : s ≠ 200) (h2 : EasyBit.fromJson? body = some e) :
    set_fee_handle s body = .error (.ApiError e) := by
  unfold set_fee_handle
  rw [if_neg h0]
  exact pfd_some Unit h2

theorem vah_ne {s : Nat} {body : Json} {e : EasyBit}
    (h0 : s ≠ 200) (h2 : EasyBit.fromJson? body = some e) :
    validate_address_handle s body = .error (.ApiError e) := by
  unfold validate_address_handle
  rw [if_neg h0]
  exact pfd_some Unit h2

theorem runCalls_eq (c : Client) (calls : List ClientCall) : runCalls c calls = c := by
  induction calls with
  | nil => rfl
  | cons hd tl ih => simpa [runCalls, applyCall] using ih

/-! ### The claims -/

/-- Claim C1, counterexample to the claim as stated: `set_fee` receiving a
200 response whose body is a failure envelope carrying `errorMessage` and
`errorCode` returns `Ok(())`, not an `ApiError` with those two fields. -/
theorem claim_C1_counterexample :
    set_fee_handle 200 (failEnv "Invalid API Key" 401) = .ok () ∧
      (Except.ok () : Except Error Unit) ≠
        .error (.ApiError ⟨"Invalid API Key", 401⟩) :=
  ⟨rfl, fun h => Except.noConfusion h⟩

/-- Claim C1 (amended): for every endpoint operation that parses the response
envelope, when the status check passes (where the source has one): a body
whose `data` field deserializes into the endpoint's result type yields `Ok`
of that value (for `get_single_currency`, of the first element of the
deserialized list when it is nonempty), a body without `data` that parses as
a failure envelope yields an `ApiError` with exactly those `errorMessage` and
`errorCode`, and on a non-200 status a body parsing as a failure envelope
likewise yields that `ApiError`.  The exceptions are `set_fee` and
`validate_address`, which return `Ok(())` on any 200 response without reading
the body.  (`get_currency_list`, `create_order`, `order_status` and
`all_orders` perform no status check, so their conjuncts hold for any
status.) -/
theorem claim_C1_amended :
    (∀ body d a, jsonGet body "data" = some d → Account.fromJson? d = some a →
      get_account_handle 200 body = .ok a)
    ∧ (∀ body e, jsonGet body "data" = none → EasyBit.fromJson? body = some e →
      get_account_handle 200 body = .error (.ApiError e))
    ∧ (∀ s body e, s ≠ 200 → EasyBit.fromJson? body = some e →
      get_account_handle s body = .error (.ApiError e))
    ∧ (∀ body d l, jsonGet body "data" = some d →
      listFromJson? Currency.fromJson? d = some l →
      get_currency_list_handle body = .ok l)
    ∧ (∀ body e, jsonGet body "data" = none → EasyBit.fromJson? body = some e →
      get_currency_list_handle body = .error (.ApiError e))
    ∧ (∀ body d x xs, jsonGet body "data" = some d →
      listFromJson? Currency.fromJson? d = some (x :: xs) →
      get_single_currency_handle 200 body = .ok x)
    ∧ (∀ body e, jsonGet body "data" = none → EasyBit.fromJson? body = some e →
      get_single_currency_handle 200 body = .error (.ApiError e))
    ∧ (∀ s body e, s ≠ 200 → EasyBit.fromJson? body = some e →
      get_single_currency_handle s body = .error (.ApiError e))
    ∧ (∀ body d l, jsonGet body "data" = some d →
      listFromJson? Json.asString? d = some l →
      get_pair_list_handle 200 body = .ok l)
    ∧ (∀ body e, jsonGet body "data" = none → EasyBit.fromJson? body = some e →
      get_pair_list_handle 200 body = .error (.ApiError e))
    ∧ (∀ s body e, s ≠ 200 → EasyBit.fromJson? body = some e →
      get_pair_list_handle s body = .error (.ApiError e))
    ∧ (∀ body d p, jsonGet body "data" = some d → Pair.fromJson? d = some p →
      get_pair_info_handle 200 body = .ok p)
    ∧ (∀ body e, jsonGet body "data" = none → EasyBit.fromJson? body = some e →
      get_pair_info_handle 200 body = .error (.ApiError e))
    ∧ (∀ s body e, s ≠ 200 → EasyBit.fromJson? body = some e →
      get_pair_info_handle s body = .error (.ApiError e))
    ∧ (∀ body d r, jsonGet body "data" = some d → ExchangeRate.fromJson? d = some r →
      get_exchange_rate_handle 200 body = .ok r)
    ∧ (∀ body e, jsonGet body "data" = none → EasyBit.fromJson? body = some e →
      get_exchange_rate_handle 200 body = .error (.ApiError e))
    ∧ (∀ s body e, s ≠ 200 → EasyBit.fromJson? body = some e →
      get_exchange_rate_handle s body = .error (.ApiError e))
    ∧ (∀ body, set_fee_handle 200 body = .ok ())
    ∧ (∀ s body e, s ≠ 200 → EasyBit.fromJson? body = some e →
      set_fee_handle s body = .error (.ApiError e))
    ∧ (∀ body, validate_address_handle 200 body = .ok ())
    ∧ (∀ s body e, s ≠ 200 → EasyBit.fromJson? body = some e →
      validate_address_handle s body = .error (.ApiError e))
    ∧ (∀ body d o, jsonGet body "data" = some d → orders.Order.fromJson? d = some o →
      create_order_handle body = .ok o)
    ∧ (∀ body e, jsonGet body "data" = none → EasyBit.fromJson? body = some e →
      create_order_handle body = .error (.ApiError e))
    ∧ (∀ body d st, jsonGet body "data" = some d → orders.Status.fromJson? d = some st →
      order_status_handle body = .ok st)
    ∧ (∀ body e, jsonGet body "data" = none → EasyBit.fromJson? body = some e →
      order_status_handle body = .error (.ApiError e))
    ∧ (∀ body d l, jsonGet body "data" = some d →
      listFromJson? orders.Summary.fromJson? d = some l →
      all_orders_handle body = .ok l)
    ∧ (∀ body e, jsonGet body "data" = none → EasyBit.fromJson? body = some e →
      all_orders_handle body = .error (.ApiError e)) :=
  ⟨fun _ _ _ h1 h2 => hsb_data Account.fromJson? h1 h2,
   fun _ _ h1 h2 => hsb_noData Account.fromJson? h1 h2,
   fun _ _ _ h0 h2 => hsb_ne Account.fromJson? h0 h2,
   fun _ _ _ h1 h2 => hb_data (listFromJson? Currency.fromJson?) h1 h2,
   fun _ _ h1 h2 => hb_noData (listFromJson? Currency.fromJson?) h1 h2,
   fun _ _ _ _ h1 h2 => gsc_first h1 h2,
   fun _ _ h1 h2 => gsc_noData h1 h2,
   fun _ _ _ h0 h2 => gsc_ne h0 h2,
   fun _ _ _ h1 h2 => hsb_data (listFromJson? Json.asString?) h1 h2,
   fun _ _ h1 h2 => hsb_noData (listFromJson? Json.asString?) h1 h2,
   fun _ _ _ h0 h2 => hsb_ne (listFromJson? Json.asString?) h0 h2,
   fun _ _ _ h1 h2 => hsb_data Pair.fromJson? h1 h2,
   fun _ _ h1 h2 => hsb_noData Pair.fromJson? h1 h2,
   fun _ _ _ h0 h2 => hsb_ne Pair.fromJson? h0 h2,
   fun _ _ _ h1 h2 => hsb_data ExchangeRate.fromJson? h1 h2,
   fun _ _ h1 h2 => hsb_noData ExchangeRate.fromJson? h1 h2,
   fun _ _ _ h0 h2 => hsb_ne ExchangeRate.fromJson? h0 h2,
   fun _ => rfl,
   fun _ _ _ h0 h2 => sfh_ne h0 h2,
   fun _ => rfl,
   fun _ _ _ h0 h2 => vah_ne h0 h2,
   fun _ _ _ h1 h2 => hb_data orders.Order.fromJson? h1 h2,
   fun _ _ h1 h2 => hb_noData orders.Order.fromJson? h1 h2,
   fun _ _ _ h1 h2 => hb_data orders.Status.fromJson? h1 h2,
   fun _ _ h1 h2 => hb_noData orders.Status.fromJson? h1 h2,
   fun _ _ _ h1 h2 => hb_data (listFromJson? orders.Summary.fromJson?) h1 h2,
   fun _ _ h1 h2 => hb_noData (listFromJson? orders.Summary.fromJson?) h1 h2⟩

/-- Claim C1, witness: the amended theorem applied to a concrete 200 response
for `/account` whose `data` deserializes into a concrete `Account`. -/
theorem claim_C1_witness : get_account_handle 200 accBody = .ok acc0 :=
  claim_C1_amended.1 accBody accJson acc0 rfl rfl

/-- Claim C2, counterexample to the claim as stated: `get_pair_info` with an
unset `send_network` sends `sendNetwork=` as an empty-string query value
instead of omitting it (the source passes optionals through
`unwrap_or_default()`). -/
theorem claim_C2_counterexample :
    ("sendNetwork", "") ∈ (get_pair_info_request cl0 "BTC" "ETH" none none none).query := by
  decide

/-- Claim C2 (amended): `validate_address` and `all_orders` omit optional
query parameters passed as `None` entirely (in particular unset `network` and
`tag` are absent from the `validate_address` request), but `get_pair_info`
and `get_exchange_rate` send unset optional parameters as empty-string query
values. -/
theorem claim_C2_amended :
    (∀ c cur addr tag, (validate_address_request c cur addr none tag).query =
      [("currency", cur), ("address", addr)] ++ optPair "tag" tag)
    ∧ (∀ c cur addr network, (validate_address_request c cur addr network none).query =
      [("currency", cur), ("address", addr)] ++ optPair "network" network)
    ∧ (∀ c cur addr, (validate_address_request c cur addr none none).query =
      [("currency", cur), ("address", addr)])
    ∧ (∀ c, (all_orders_request c none none none none none none).query = [])
    ∧ (∀ c s r rn a, ("sendNetwork", "") ∈ (get_pair_info_request c s r none rn a).query)
    ∧ (∀ c s r amt rn a efo,
      ("sendNetwork", "") ∈ (get_exchange_rate_request c s r amt none rn a efo).query) :=
  ⟨fun c cur addr tag => by simp [validate_address_request, optPair],
   fun c cur addr network => by simp [validate_address_request, optPair],
   fun c cur addr => rfl,
   fun c => rfl,
   fun c s r rn a => by simp [get_pair_info_request],
   fun c s r amt rn a efo => by simp [get_exchange_rate_request]⟩

/-- Claim C3, counterexample to the claim as stated: the `/order` JSON body of
a concrete order (the repository's own test order, `amount` 0.1) carries the
`amount` field as a raw JSON number, not a string. -/
theorem claim_C3_counterexample :
    jsonGet (create_order_body tx0 user0 net0) "amount" = some (Json.num (1 / 10)) ∧
      Json.isStr (Json.num (1 / 10)) = false :=
  ⟨rfl, rfl⟩

/-- Claim C3 (amended): the `/rate` query serializes `amount` through
`to_string()` (a string value in the query), but the `/order` JSON body
serializes `amount` as a raw JSON number. -/
theorem claim_C3_amended :
    (∀ c s r amt sn rn a efo,
      ("amount", f64String amt) ∈ (get_exchange_rate_request c s r amt sn rn a efo).query)
    ∧ (∀ t u n, jsonGet (create_order_body t u n) "amount" = some (.num t.amount)) :=
  ⟨fun c s r amt sn rn a efo => by simp [get_exchange_rate_request],
   fun t u n => rfl⟩

/-- Claim C4: for every requested currency code, a 200 response whose `data`
field holds an empty list makes `get_single_currency` return an `ApiError`
with code 404 and message "Currency not found". -/
theorem claim_C4 :
    ∀ (c : Client) (currency : String) (body : Json),
      jsonGet body "data" = some (Json.arr []) →
      get_single_currency c currency ⟨200, body⟩ =
        .error (.ApiError ⟨"Currency not found", 404⟩) := by
  intro c currency body h
  show get_single_currency_handle 200 body = _
  simp [get_single_currency_handle, h, listFromJson?, mapOption]

/-- Claim C4, witness: the theorem applied to a concrete empty-`data`
response. -/
theorem claim_C4_witness :
    get_single_currency cl0 "DOGE" ⟨200, Json.obj [("data", Json.arr [])]⟩ =
      .error (.ApiError ⟨"Currency not found", 404⟩) :=
  claim_C4 cl0 "DOGE" (Json.obj [("data", Json.arr [])]) rfl

/-- Claim C5, counterexample to the claim as stated: requesting code "BTC"
while the service's `data` list holds a record whose `currency` is "ETH"
makes `get_single_currency` return `Ok` of that record, whose `currency`
field differs from the requested code — the code never checks it. -/
theorem claim_C5_counterexample :
    get_single_currency cl0 "BTC" ⟨200, bodyEth⟩ = .ok ethCur ∧
      ethCur.currency ≠ "BTC" :=
  ⟨rfl, by decide⟩

/-- Claim C5 (amended): whenever the service's `data` field deserializes to a
nonempty currency list, `get_single_currency` returns `Ok` of its first
element, irrespective of the requested code; the `currency` field of the
result equals the requested code only if the service's first record carries
it. -/
theorem claim_C5_amended :
    ∀ (c : Client) (currency : String) (body d : Json) (x : Currency) (xs : List Currency),
      jsonGet body "data" = some d →
      listFromJson? Currency.fromJson? d = some (x :: xs) →
      get_single_currency c currency ⟨200, body⟩ = .ok x :=
  fun _ _ _ _ _ _ h1 h2 => gsc_first h1 h2

/-- Claim C5, witness: the amended theorem applied to a concrete one-element
`data` list. -/
theorem claim_C5_witness : get_single_currency cl0 "ETH" ⟨200, bodyEth⟩ = .ok ethCur :=
  claim_C5_amended cl0 "ETH" bodyEth (Json.arr [ethJson]) ethCur [] rfl rfl

/-- Claim C6: every implemented operation maps a response with a non-success
status and a well-formed failure envelope (as the service sends when it
rejects the API key) to an `ApiError` carrying exactly the envelope's message
and code — never a panic (all handlers are total functions) and never a
`NetworkError`.  `get_currency_list`, `create_order`, `order_status` and
`all_orders` ignore the status entirely, so their conjuncts need no status
hypothesis.  The two stubbed methods panic before issuing any request, so no
service response to them exists (see claim C7). -/
theorem claim_C6 :
    (∀ s m c, s ≠ 200 → -(2 ^ 31) ≤ c → c < 2 ^ 31 →
      get_account_handle s (failEnv m c) = .error (.ApiError ⟨m, c⟩))
    ∧ (∀ s m c, s ≠ 200 → -(2 ^ 31) ≤ c → c < 2 ^ 31 →
      set_fee_handle s (failEnv m c) = .error (.ApiError ⟨m, c⟩))
    ∧ (∀ m c, -(2 ^ 31) ≤ c → c < 2 ^ 31 →
      get_currency_list_handle (failEnv m c) = .error (.ApiError ⟨m, c⟩))
    ∧ (∀ s m c, s ≠ 200 → -(2 ^ 31) ≤ c → c < 2 ^ 31 →
      get_single_currency_handle s (failEnv m c) = .error (.ApiError ⟨m, c⟩))
    ∧ (∀ s m c, s ≠ 200 → -(2 ^ 31) ≤ c → c < 2 ^ 31 →
      get_pair_list_handle s (failEnv m c) = .error (.ApiError ⟨m, c⟩))
    ∧ (∀ s m c, s ≠ 200 → -(2 ^ 31) ≤ c → c < 2 ^ 31 →
      get_pair_info_handle s (failEnv m c) = .error (.ApiError ⟨m, c⟩))
    ∧ (∀ s m c, s ≠ 200 → -(2 ^ 31) ≤ c → c < 2 ^ 31 →
      get_exchange_rate_handle s (failEnv m c) = .error (.ApiError ⟨m, c⟩))
    ∧ (∀ s m c, s ≠ 200 → -(2 ^ 31) ≤ c → c < 2 ^ 31 →
      validate_address_handle s (failEnv m c) = .error (.ApiError ⟨m, c⟩))
    ∧ (∀ m c, -(2 ^ 31) ≤ c → c < 2 ^ 31 →
      create_order_handle (failEnv m c) = .error (.ApiError ⟨m, c⟩))
    ∧ (∀ m c, -(2 ^ 31) ≤ c → c < 2 ^ 31 →
      order_status_handle (failEnv m c) = .error (.ApiError ⟨m, c⟩))
    ∧ (∀ m c, -(2 ^ 31) ≤ c → c < 2 ^ 31 →
      all_orders_handle (failEnv m c) = .error (.ApiError ⟨m, c⟩)) :=
  ⟨fun _ m c h0 hl hr => hsb_ne Account.fromJson? h0 (easyBit_failEnv m c hl hr),
   fun _ m c h0 hl hr => sfh_ne h0 (easyBit_failEnv m c hl hr),
   fun m c hl hr =>
     hb_noData (listFromJson? Currency.fromJson?) (failEnv_noData m c) (easyBit_failEnv m c hl hr),
   fun _ m c h0 hl hr => gsc_ne h0 (easyBit_failEnv m c hl hr),
   fun _ m c h0 hl hr => hsb_ne (listFromJson? Json.asString?) h0 (easyBit_failEnv m c hl hr),
   fun _ m c h0 hl hr => hsb_ne Pair.fromJson? h0 (easyBit_failEnv m c hl hr),
   fun _ m c h0 hl hr => hsb_ne ExchangeRate.fromJson? h0 (easyBit_failEnv m c hl hr),
   fun _ m c h0 hl hr => vah_ne h0 (easyBit_failEnv m c hl hr),
   fun m c hl hr =>
     hb_noData orders.Order.fromJson? (failEnv_noData m c) (easyBit_failEnv m c hl hr),
   fun m c hl hr =>
     hb_noData orders.Status.fromJson? (failEnv_noData m c) (easyBit_failEnv m c hl hr),
   fun m c hl hr =>
     hb_noData (listFromJson? orders.Summary.fromJson?) (failEnv_noData m c)
       (easyBit_failEnv m c hl hr)⟩

/-- Claim C6, witness: the theorem applied to `get_account` receiving status
401 with a concrete failure envelope. -/
theorem claim_C6_witness :
    get_account_handle 401 (failEnv "Invalid API Key" 401) =
      .error (.ApiError ⟨"Invalid API Key", 401⟩) :=
  claim_C6.1 401 "Invalid API Key" 401 (by decide) (by decide) (by decide)

/-- Claim C7: for every input, `update_order_kyc` and `refund_order` reach
their unconditional `todo!` (modelled as the `panics` action) and issue no
HTTP request; neither ever returns a value. -/
theorem claim_C7 :
    (∀ c p, update_order_kyc c p = .panics todoMsg ∧
      (update_order_kyc c p).issuedRequest = none)
    ∧ (∀ c oid addr tag, refund_order c oid addr tag = .panics todoMsg ∧
      (refund_order c oid addr tag).issuedRequest = none) :=
  ⟨fun _ _ => ⟨rfl, rfl⟩, fun _ _ _ _ => ⟨rfl, rfl⟩⟩

/-- Claim C8: `set_fee` and `validate_address` decide success solely from the
status code — the result is `Ok(())` exactly when the status is 200, for
every body, including a 200 body that is a failure envelope. -/
theorem claim_C8 :
    ∀ status body,
      (set_fee_handle status body = .ok () ↔ status = 200) ∧
        (validate_address_handle status body = .ok () ↔ status = 200) := by
  intro status body
  by_cases h : status = 200
  · subst h
    exact ⟨⟨fun _ => rfl, fun _ => rfl⟩, ⟨fun _ => rfl, fun _ => rfl⟩⟩
  · constructor
    · constructor
      · intro hok
        unfold set_fee_handle at hok
        rw [if_neg h] at hok
        exact absurd hok (pfd_ne_ok Unit body ())
      · intro h200
        exact absurd h200 h
    · constructor
      · intro hok
        unfold validate_address_handle at hok
        rw [if_neg h] at hok
        exact absurd hok (pfd_ne_ok Unit body ())
      · intro h200
        exact absurd h200 h

/-- Claim C9: no operation mutates the client's credentials — after any
sequence of calls on a client constructed by `Client::new(url, api_key)`, the
`url` and `api_key` fields are unchanged, and `get_url` / `get_api_key`
return exactly the strings passed to `new`. -/
theorem claim_C9 :
    ∀ url api_key calls,
      (runCalls (Client.new url api_key) calls).url = url ∧
        (runCalls (Client.new url api_key) calls).api_key = api_key ∧
        (runCalls (Client.new url api_key) calls).get_url = url ∧
        (runCalls (Client.new url api_key) calls).get_api_key = api_key := by
  intro url api_key calls
  rw [runCalls_eq]
  exact ⟨rfl, rfl, rfl, rfl⟩

/-- Claim C10: every implemented operation sends its request to the
concatenation of the client's base URL with its fixed endpoint path
(`get_single_currency` appends its query string after `/currencyList`; for
the other GET operations `reqwest` appends the `query` component at send
time), and attaches an `API-KEY` header equal to the client's API key. -/
theorem claim_C10 :
    (∀ c, (get_account_request c).url = c.get_url ++ "/account" ∧
      ("API-KEY", c.get_api_key) ∈ (get_account_request c).headers)
    ∧ (∀ c fee, (set_fee_request c fee).url = c.get_url ++ "/setExtraFee" ∧
      ("API-KEY", c.get_api_key) ∈ (set_fee_request c fee).headers)
    ∧ (∀ c, (get_currency_list_request c).url = c.get_url ++ "/currencyList" ∧
      ("API-KEY", c.get_api_key) ∈ (get_currency_list_request c).headers)
    ∧ (∀ c cur, (get_single_currency_request c cur).url =
        c.get_url ++ "/currencyList" ++ ("?currency=" ++ cur) ∧
      ("API-KEY", c.get_api_key) ∈ (get_single_currency_request c cur).headers)
    ∧ (∀ c, (get_pair_list_request c).url = c.get_url ++ "/pairList" ∧
      ("API-KEY", c.get_api_key) ∈ (get_pair_list_request c).headers)
    ∧ (∀ c s r sn rn a, (get_pair_info_request c s r sn rn a).url = c.get_url ++ "/pairInfo" ∧
      ("API-KEY", c.get_api_key) ∈ (get_pair_info_request c s r sn rn a).headers)
    ∧ (∀ c s r amt sn rn a efo,
      (get_exchange_rate_request c s r amt sn rn a efo).url = c.get_url ++ "/rate" ∧
      ("API-KEY", c.get_api_key) ∈ (get_exchange_rate_request c s r amt sn rn a efo).headers)
    ∧ (∀ c cur addr n t,
      (validate_address_request c cur addr n t).url = c.get_url ++ "/validateAddress" ∧
      ("API-KEY", c.get_api_key) ∈ (validate_address_request c cur addr n t).headers)
    ∧ (∀ c t u n, (create_order_request c t u n).url = c.get_url ++ "/order" ∧
      ("API-KEY", c.get_api_key) ∈ (create_order_request c t u n).headers)
    ∧ (∀ c id, (order_status_request c id).url = c.get_url ++ "/orderStatus" ∧
      ("API-KEY", c.get_api_key) ∈ (order_status_request c id).headers)
    ∧ (∀ c i l f t sd st, (all_orders_request c i l f t sd st).url = c.get_url ++ "/orders" ∧
      ("API-KEY", c.get_api_key) ∈ (all_orders_request c i l f t sd st).headers) :=
  ⟨fun c => ⟨rfl, List.mem_singleton.mpr rfl⟩,
   fun c fee => ⟨rfl, List.mem_singleton.mpr rfl⟩,
   fun c => ⟨rfl, List.mem_singleton.mpr rfl⟩,
   fun c cur =>
     ⟨by
       have hfold : ("/currencyList?currency=" : String) = "/currencyList" ++ "?currency=" := rfl
       show c.get_url ++ ("/currencyList?currency=" ++ cur) =
         c.get_url ++ "/currencyList" ++ ("?currency=" ++ cur)
       rw [hfold, String.append_assoc, ← String.append_assoc],
      List.mem_singleton.mpr rfl⟩,
   fun c => ⟨rfl, List.mem_singleton.mpr rfl⟩,
   fun c s r sn rn a => ⟨rfl, List.mem_singleton.mpr rfl⟩,
   fun c s r amt sn rn a efo => ⟨rfl, List.mem_singleton.mpr rfl⟩,
   fun c cur addr n t => ⟨rfl, List.mem_singleton.mpr rfl⟩,
   fun c t u n => ⟨rfl, List.mem_singleton.mpr rfl⟩,
   fun c id => ⟨rfl, List.mem_singleton.mpr rfl⟩,
   fun c i l f t sd st => ⟨rfl, List.mem_singleton.mpr rfl⟩⟩
